import Mathlib

/-!
Verification of the events endpoint of the opensea-python-wrapper
repository (`open_sea_v1/endpoints/endpoint_events.py`).

The Python code is dynamically typed: the dataclass fields of
`_EventsEndpoint` can hold values of any runtime type, and validation
inspects those runtime types with `isinstance`.  We therefore embed the
field values as a small universe `PyValue` of Python runtime values.
Python `datetime` objects are totally ordered with microsecond
resolution; we model them as integers (their timeline position), which
is faithful for `==` and `<`.

`ExtendedStrEnum` (the base of `EventType` and `AuctionType`), the
client base class providing the HTTP GET, the URL registry and the
`EventResponse` parser live outside the examined sources; the few facts
about them that the endpoint uses are modelled from the spec and marked
as such in their doc comments.
-/

namespace OpenSeaEvents

/-- The `EventType` enum of `endpoint_events.py` (lines 15-25). -/
inductive EventType where
  | CREATED
  | SUCCESSFUL
  | CANCELLED
  | BID_ENTERED
  | BID_WITHDRAWN
  | TRANSFER
  | APPROVE
deriving DecidableEq, Repr

/-- The string value of each `EventType` member, from the source. -/
def EventType.value : EventType → String
  | .CREATED => "created"
  | .SUCCESSFUL => "successful"
  | .CANCELLED => "cancelled"
  | .BID_ENTERED => "bid_entered"
  | .BID_WITHDRAWN => "bid_withdrawn"
  | .TRANSFER => "transfer"
  | .APPROVE => "approve"

/-- Modelled from the spec: `ExtendedStrEnum.list()` is not under the
examined sources; the spec describes it as the "list of valid values"
query used by validation, so `EventType.list()` is the list of the
member values declared in the source. -/
def EventType.listValues : List String :=
  ["created", "successful", "cancelled", "bid_entered", "bid_withdrawn",
   "transfer", "approve"]

/-- The `AuctionType` enum of `endpoint_events.py` (lines 28-34). -/
inductive AuctionType where
  | ENGLISH
  | DUTCH
  | MIN_PRICE
deriving DecidableEq, Repr

/-- The string value of each `AuctionType` member, from the source. -/
def AuctionType.value : AuctionType → String
  | .ENGLISH => "english"
  | .DUTCH => "dutch"
  | .MIN_PRICE => "min-price"

/-- Modelled from the spec: `AuctionType.list()` (via `ExtendedStrEnum`)
is the list of the member values declared in the source. -/
def AuctionType.listValues : List String :=
  ["english", "dutch", "min-price"]

/-- A universe of Python runtime values covering the types the endpoint
and its tests exercise: `None`, booleans, ints, strings, `datetime`
objects (as their timeline position), and members of the two enums. -/
inductive PyValue where
  | none
  | bool (b : Bool)
  | int (n : Int)
  | str (s : String)
  | datetime (t : Int)
  | eventTypeMember (e : EventType)
  | auctionTypeMember (a : AuctionType)
deriving DecidableEq, Repr

namespace PyValue

/-- `isinstance(x, (str, EventType))` / `isinstance(x, (str, AuctionType))`.
Modelled from the spec: `ExtendedStrEnum` members are "string-like"
values (a str-subclass enum), so plain strings and members of either
enum are instances of `str`. -/
def isStringLike : PyValue → Bool
  | .str _ => true
  | .eventTypeMember _ => true
  | .auctionTypeMember _ => true
  | _ => false

/-- The string content of a string-like value: a plain string is itself,
an enum member compares equal to its `value` string. Only meaningful
when `isStringLike` holds. -/
def strValue : PyValue → String
  | .str s => s
  | .eventTypeMember e => e.value
  | .auctionTypeMember a => a.value
  | _ => ""

/-- Python `x in xs` for a string-like `x` and a list of strings:
membership by `==`, where a str-enum member equals its value string and
a non-string value equals no string. -/
def inStrList (v : PyValue) (xs : List String) : Bool :=
  xs.any fun s => v.isStringLike && v.strValue == s

/-- `isinstance(x, (type(None), datetime))`. -/
def isNoneOrDatetime : PyValue → Bool
  | .none => true
  | .datetime _ => true
  | _ => false

/-- Python truthiness of the values in `PyValue` (`datetime` objects are
always truthy; `None` is falsy). -/
def truthy : PyValue → Bool
  | .none => false
  | .bool b => b
  | .int n => n != 0
  | .str s => s != ""
  | .datetime _ => true
  | .eventTypeMember _ => true
  | .auctionTypeMember _ => true

/-- Python `a < b` for the one place it is used: comparing two
`datetime` values (any other comparison is unreachable because the type
checks run first). -/
def dtLt : PyValue → PyValue → Bool
  | .datetime a, .datetime b => a < b
  | _, _ => false

/-- `type(x).__name__`-style tag, as interpolated by
`f'{type(self.occurred_before)=}'` in the source. -/
def typeName : PyValue → String
  | .none => "NoneType"
  | .bool _ => "bool"
  | .int _ => "int"
  | .str _ => "str"
  | .datetime _ => "datetime.datetime"
  | .eventTypeMember _ => "EventType"
  | .auctionTypeMember _ => "AuctionType"

end PyValue

/-- The two error kinds of the design: `TypeError` (TypeKind) and
`ValueError` (ValueKind). -/
inductive ErrKind where
  | typeKind
  | valueKind
deriving DecidableEq, Repr

/-- The second argument of each `raise` in the source: either the
f-string `f"{self.field=}"` (field name plus the offending value),
`f'{type(self.field)=}'` (field name plus the type of the offending
value), or `f"{self.f1=}, {self.f2=}"` (two fields with their values). -/
inductive ErrPayload where
  | fieldValue (field : String) (value : PyValue)
  | fieldType (field : String) (tyName : String)
  | twoFieldValues (f1 : String) (v1 : PyValue) (f2 : String) (v2 : PyValue)
deriving DecidableEq, Repr

/-- A raised validation error: its Python class (kind), its message
string, and its payload. -/
structure PyErr where
  kind : ErrKind
  msg : String
  payload : ErrPayload
deriving DecidableEq, Repr

/-- The shared client-parameters object: read-only `offset` and `limit`
integers (spec section 6). -/
structure ClientParams where
  offset : Int
  limit : Int
deriving DecidableEq, Repr

/-- The field values handed to the `_EventsEndpoint` dataclass
constructor (lines 70-79 of the source).  Fields are Python runtime
values; validation constrains them afterwards. -/
structure EventsInput where
  client_params : ClientParams
  asset_contract_address : PyValue
  token_id : PyValue
  collection_slug : PyValue
  account_address : PyValue
  occurred_before : PyValue
  occurred_after : PyValue
  event_type : PyValue
  auction_type : PyValue
  only_opensea : PyValue
deriving DecidableEq, Repr

open PyValue

/-- `_EventsEndpoint._validate_param_event_type` (lines 117-122). -/
def validate_param_event_type (self : EventsInput) : Except PyErr Unit :=
  if !self.event_type.isStringLike then
    .error ⟨.typeKind, "Invalid event_type type. Must be str or EventType Enum.",
            .fieldValue "event_type" self.event_type⟩
  else if !self.event_type.inStrList EventType.listValues then
    .error ⟨.valueKind, "Invalid event_type value. Must be str value from EventType Enum.",
            .fieldValue "event_type" self.event_type⟩
  else
    .ok ()

/-- `_EventsEndpoint._validate_param_auction_type` (lines 124-133). -/
def validate_param_auction_type (self : EventsInput) : Except PyErr Unit :=
  if self.auction_type = .none then
    .ok ()
  else if !self.auction_type.isStringLike then
    .error ⟨.typeKind, "Invalid auction_type type. Must be str or AuctionType Enum.",
            .fieldValue "auction_type" self.auction_type⟩
  else if !self.auction_type.inStrList AuctionType.listValues then
    .error ⟨.valueKind, "Invalid auction_type value. Must be str value from AuctionType Enum.",
            .fieldValue "auction_type" self.auction_type⟩
  else
    .ok ()

/-- `_EventsEndpoint._validate_param_occurred_before` (lines 142-145).
Note the payload interpolates `type(self.occurred_before)`, not the
value itself. -/
def validate_param_occurred_before (self : EventsInput) : Except PyErr Unit :=
  if !self.occurred_before.isNoneOrDatetime then
    .error ⟨.typeKind, "Invalid occurred_before type. Must be instance of datetime.",
            .fieldType "occurred_before" self.occurred_before.typeName⟩
  else
    .ok ()

/-- `_EventsEndpoint._validate_param_occurred_after` (lines 147-150). -/
def validate_param_occurred_after (self : EventsInput) : Except PyErr Unit :=
  if !self.occurred_after.isNoneOrDatetime then
    .error ⟨.typeKind, "Invalid occurred_after type. Must be instance of datetime.",
            .fieldType "occurred_after" self.occurred_after.typeName⟩
  else
    .ok ()

/-- `_EventsEndpoint._assert_param_occurred_before_after_cannot_be_same_value`
(lines 152-155). -/
def assert_param_occurred_before_after_cannot_be_same_value
    (self : EventsInput) : Except PyErr Unit :=
  if self.occurred_after = self.occurred_before then
    .error ⟨.valueKind, "Params occurred_after and occurred_before may not have the same value.",
            .twoFieldValues "occurred_before" self.occurred_before
                            "occurred_after" self.occurred_after⟩
  else
    .ok ()

/-- `_EventsEndpoint._assert_param_occurred_before_cannot_be_higher_than_occurred_after`
(lines 157-160). -/
def assert_param_occurred_before_cannot_be_higher_than_occurred_after
    (self : EventsInput) : Except PyErr Unit :=
  if !(self.occurred_after.dtLt self.occurred_before) then
    .error ⟨.valueKind, "Param occurred_before cannot be higher than param occurred_after.",
            .twoFieldValues "occurred_before" self.occurred_before
                            "occurred_after" self.occurred_after⟩
  else
    .ok ()

/-- `_EventsEndpoint._validate_params_occurred_before_and_occurred_after`
(lines 135-140): a raised exception aborts the sequence, modelled with
the `Except` monad. -/
def validate_params_occurred_before_and_occurred_after
    (self : EventsInput) : Except PyErr Unit := do
  validate_param_occurred_before self
  validate_param_occurred_after self
  if self.occurred_after.truthy && self.occurred_before.truthy then
    assert_param_occurred_before_after_cannot_be_same_value self
    assert_param_occurred_before_cannot_be_higher_than_occurred_after self
  else
    pure ()

/-- `_EventsEndpoint._validate_request_params` (lines 112-115): the
three check groups in source order; a raised exception propagates. -/
def validate_request_params (self : EventsInput) : Except PyErr Unit := do
  validate_param_auction_type self
  validate_param_event_type self
  validate_params_occurred_before_and_occurred_after self

/-- A successfully constructed `_EventsEndpoint` instance: the dataclass
fields, available only after `__post_init__` validation succeeded. -/
structure EventsEndpoint where
  input : EventsInput
deriving DecidableEq, Repr

/-- Dataclass construction with `__post_init__` (lines 81-82): runs
`_validate_request_params`; a raised error means no instance is
produced. -/
def mkEventsEndpoint (inp : EventsInput) : Except PyErr EventsEndpoint :=
  (validate_request_params inp).map fun _ => ⟨inp⟩

/-- `_validate_request_params` instrumented with the list of check
groups actually entered: the control flow is the same exception
propagation as in the source, so a group is entered exactly when every
earlier group returned normally. -/
def validate_request_params_trace (self : EventsInput) :
    Except PyErr Unit × List String :=
  match validate_param_auction_type self with
  | .error e => (.error e, ["auction_type"])
  | .ok () =>
    match validate_param_event_type self with
    | .error e => (.error e, ["auction_type", "event_type"])
    | .ok () =>
      (validate_params_occurred_before_and_occurred_after self,
       ["auction_type", "event_type", "occurred_before_and_occurred_after"])

/-- Modelled from the spec: the fixed "events" endpoint URL supplied by
the URL registry (`OpenseaApiEndpoints.EVENTS.value`), which is outside
the examined sources.  All that matters here is that it is one fixed
string. -/
def OpenseaApiEndpoints.EVENTS : String := "https://api.opensea.io/api/v1/events"

/-- The `url` property of `_EventsEndpoint` (lines 84-86). -/
def EventsEndpoint.url (_self : EventsEndpoint) : String :=
  OpenseaApiEndpoints.EVENTS

/-- A minimal JSON universe for the response body. -/
inductive Json where
  | null
  | bool (b : Bool)
  | num (n : Int)
  | str (s : String)
  | arr (xs : List Json)
  | obj (fields : List (String × Json))

/-- Python `d[key]` on a JSON object: the value of the first matching
key, or `none` (a KeyError) when absent or when the body is not an
object. -/
def Json.getKey : Json → String → Option Json
  | .obj fields, key => (fields.find? fun p => p.1 == key).map Prod.snd
  | _, _ => Option.none

/-- One outbound HTTP GET: the URL and the query-parameter dictionary
(in insertion order, as Python dicts preserve it). -/
structure HttpCall where
  url : String
  params : List (String × PyValue)
deriving DecidableEq, Repr

/-- The HTTP response: its `.json()` body. -/
structure HttpResponse where
  body : Json

/-- Modelled from the spec: the transport capability
(`BaseOpenSeaClient`, outside the examined sources) performs a GET with
the given URL and query parameters and returns a response.  It is a
parameter of the request step. -/
abbrev Transport : Type := HttpCall → HttpResponse

/-- The query-parameter dictionary built by `_EventsEndpoint._get_request`
(lines 89-101), key for key in source order: `offset` and `limit` come
from the client-parameters object, every other value is the instance's
field unchanged. -/
def requestParams (self : EventsInput) : List (String × PyValue) :=
  [("offset", .int self.client_params.offset),
   ("limit", .int self.client_params.limit),
   ("asset_contract_address", self.asset_contract_address),
   ("event_type", self.event_type),
   ("only_opensea", self.only_opensea),
   ("collection_slug", self.collection_slug),
   ("token_id", self.token_id),
   ("account_address", self.account_address),
   ("auction_type", self.auction_type),
   ("occurred_before", self.occurred_before),
   ("occurred_after", self.occurred_after)]

/-- The result of `_EventsEndpoint._get_request` (lines 88-104): the
call handed to the transport, and the raw response retained on the
object as `_http_response`. -/
structure GetRequestResult where
  call : HttpCall
  http_response : HttpResponse

/-- `_EventsEndpoint._get_request` (lines 88-104): builds the parameter
dictionary, performs the GET against `self.url` through the transport,
and retains the raw response as `self._http_response`. -/
def get_request (self : EventsEndpoint) (perform_get : Transport) :
    GetRequestResult :=
  let call : HttpCall := ⟨self.url, requestParams self.input⟩
  ⟨call, perform_get call⟩

/-- `_EventsEndpoint.parsed_http_response` (lines 106-110), for an
externally supplied element parser: reads `asset_events` from the JSON
body and maps the parser over it (`none` when the key is absent or its
value is not an array, where the Python code raises from the JSON
layer).  The parser `EventResponse` is modelled from the spec: the
external event-response collaborator, `parse_event(json) -> EventRecord`,
outside the examined sources. -/
def parsed_http_response {EventRecord : Type}
    (EventResponse : Json → EventRecord) (http_response : HttpResponse) :
    Option (List EventRecord) :=
  match http_response.body.getKey "asset_events" with
  | some (.arr events_json) => some (events_json.map fun event => EventResponse event)
  | _ => Option.none

/-- The lifecycle exercised by the tests' `create_and_get` helper
(`tests/test_events.py`, lines 14-18): construct the endpoint — which
validates — then issue the GET.  The second component is the log of
HTTP calls made, so that "no call before successful validation" is
observable. -/
def create_and_get (inp : EventsInput) (perform_get : Transport) :
    Except PyErr GetRequestResult × List HttpCall :=
  match mkEventsEndpoint inp with
  | .error e => (.error e, [])
  | .ok ep =>
    let r := get_request ep perform_get
    (.ok r, [r.call])

/-- `true` when the computation returned normally, `false` when it
raised. -/
def isOkE {α : Type} : Except PyErr α → Bool
  | .ok _ => true
  | .error _ => false

/-- The kind (Python exception class) of the raised error, if any. -/
def errKind {α : Type} : Except PyErr α → Option ErrKind
  | .ok _ => Option.none
  | .error e => some e.kind

/-- The spec's validity predicate, written from its words: `auction_type`
absent or a string-like member of the AuctionType values; `event_type` a
string-like member of the EventType values; `occurred_before` and
`occurred_after` each absent or a datetime; and when both are present,
`occurred_after` strictly earlier than `occurred_before`. -/
def ValidEventsInput (inp : EventsInput) : Prop :=
  (inp.auction_type = .none ∨
     (inp.auction_type.isStringLike = true ∧
      inp.auction_type.inStrList AuctionType.listValues = true)) ∧
  (inp.event_type.isStringLike = true ∧
   inp.event_type.inStrList EventType.listValues = true) ∧
  (inp.occurred_before = .none ∨ ∃ t : Int, inp.occurred_before = .datetime t) ∧
  (inp.occurred_after = .none ∨ ∃ t : Int, inp.occurred_after = .datetime t) ∧
  (∀ tb ta : Int, inp.occurred_before = .datetime tb →
     inp.occurred_after = .datetime ta → ta < tb)

/-- The comparison validator of the refinement claim: the source's
occurred-before/after group with the dedicated equal-values assert
removed and everything else unchanged. -/
def validate_params_occurred_without_equality_check
    (self : EventsInput) : Except PyErr Unit := do
  validate_param_occurred_before self
  validate_param_occurred_after self
  if self.occurred_after.truthy && self.occurred_before.truthy then
    assert_param_occurred_before_cannot_be_higher_than_occurred_after self
  else
    pure ()

/-- The tests' default keyword arguments (`tests/test_events.py`,
lines 8-12): the CryptoPunks contract, `event_type=SUCCESSFUL`,
`only_opensea=False`, offset 0, limit 1, everything else absent. -/
def sampleInput : EventsInput where
  client_params := ⟨0, 1⟩
  asset_contract_address := .str "0xb47e3cd837ddf8e4c57f05d70ab865de6e193bbb"
  token_id := .none
  collection_slug := .none
  account_address := .none
  occurred_before := .none
  occurred_after := .none
  event_type := .eventTypeMember .SUCCESSFUL
  auction_type := .none
  only_opensea := .bool false

/-- `occurred_before=True`, as in the tests' non-datetime case. -/
def inpOccBoolBefore : EventsInput :=
  { sampleInput with occurred_before := .bool true }

/-- Both bounds present and equal. -/
def inpOccEqual : EventsInput :=
  { sampleInput with occurred_before := .datetime 100, occurred_after := .datetime 100 }

/-- Both bounds present, `occurred_after` later than `occurred_before`. -/
def inpOccInverted : EventsInput :=
  { sampleInput with occurred_before := .datetime 100, occurred_after := .datetime 200 }

/-- Both bounds present, `occurred_after` strictly earlier. -/
def inpOccValid : EventsInput :=
  { sampleInput with occurred_before := .datetime 200, occurred_after := .datetime 100 }

/-- `event_type='randomstr'`, as in the tests. -/
def inpBadEventStr : EventsInput :=
  { sampleInput with event_type := .str "randomstr" }

/-- `event_type` left absent. -/
def inpEventAbsent : EventsInput :=
  { sampleInput with event_type := .none }

/-- A non-string-like `auction_type` (the tests use the float `0.0`; any
non-string-like value takes the same branch). -/
def inpBadAuctionNonStr : EventsInput :=
  { sampleInput with auction_type := .int 0 }

/-- `auction_type='randomstr'`, as in the tests. -/
def inpBadAuctionStr : EventsInput :=
  { sampleInput with auction_type := .str "randomstr" }

/-- An input on which the auction-type group and the event-type group
each fail on their own. -/
def inpBadBothGroups : EventsInput :=
  { sampleInput with auction_type := .int 0, event_type := .none }

/-- Two inputs that differ only in the (non-datetime) value of
`occurred_before`. -/
def inpOccStrA : EventsInput :=
  { sampleInput with occurred_before := .str "a" }

/-- See `inpOccStrA`. -/
def inpOccStrB : EventsInput :=
  { sampleInput with occurred_before := .str "b" }

/-- A concrete transport stub returning a fixed body. -/
def sampleTransport : Transport :=
  fun _ => ⟨.obj [("asset_events", .arr [])]⟩

/-- A concrete response body with a two-element `asset_events` array. -/
def sampleEventsResponse : HttpResponse :=
  ⟨.obj [("asset_events", .arr [.str "e1", .str "e2"])]⟩

/-- `auction_type=AuctionType.DUTCH`, as in the tests. -/
def inpAuctionDutch : EventsInput :=
  { sampleInput with auction_type := .auctionTypeMember .DUTCH }

/-- The endpoint instance built from the tests' default arguments. -/
def epSample : EventsEndpoint := ⟨sampleInput⟩

/-- The error raised on `inpOccBoolBefore` (a boolean `occurred_before`). -/
def eOccBoolBefore : PyErr :=
  ⟨.typeKind, "Invalid occurred_before type. Must be instance of datetime.",
   .fieldType "occurred_before" "bool"⟩

/-- The error raised on `inpOccStrA` and on `inpOccStrB` alike (a string
`occurred_before`): the payload records only the value's type. -/
def eOccStr : PyErr :=
  ⟨.typeKind, "Invalid occurred_before type. Must be instance of datetime.",
   .fieldType "occurred_before" "str"⟩

/-! ### Auxiliary lemmas -/

theorem trace_fst_eq_validate (inp : EventsInput) :
    (validate_request_params_trace inp).1 = validate_request_params inp := by
  unfold validate_request_params_trace validate_request_params
  cases hA : validate_param_auction_type inp with
  | error e => simp [hA, Bind.bind, Except.bind]
  | ok u =>
    cases u
    cases hE : validate_param_event_type inp with
    | error e => simp [hA, hE, Bind.bind, Except.bind]
    | ok u => cases u; simp [hA, hE, Bind.bind, Except.bind]

theorem auction_ok_iff (inp : EventsInput) :
    validate_param_auction_type inp = .ok () ↔
      (inp.auction_type = .none ∨
       (inp.auction_type.isStringLike = true ∧
        inp.auction_type.inStrList AuctionType.listValues = true)) := by
  unfold validate_param_auction_type
  repeat' split
  all_goals simp_all

theorem event_ok_iff (inp : EventsInput) :
    validate_param_event_type inp = .ok () ↔
      (inp.event_type.isStringLike = true ∧
       inp.event_type.inStrList EventType.listValues = true) := by
  unfold validate_param_event_type
  repeat' split
  all_goals simp_all

set_option maxHeartbeats 1000000 in
theorem occ_ok_iff (inp : EventsInput) :
    validate_params_occurred_before_and_occurred_after inp = .ok () ↔
      (inp.occurred_before.isNoneOrDatetime = true ∧
       inp.occurred_after.isNoneOrDatetime = true ∧
       ∀ tb ta : Int, inp.occurred_before = .datetime tb →
         inp.occurred_after = .datetime ta → ta < tb) := by
  cases hb : inp.occurred_before <;> cases ha : inp.occurred_after <;>
    simp_all [validate_params_occurred_before_and_occurred_after,
      validate_param_occurred_before, validate_param_occurred_after,
      assert_param_occurred_before_after_cannot_be_same_value,
      assert_param_occurred_before_cannot_be_higher_than_occurred_after,
      PyValue.isNoneOrDatetime, PyValue.truthy, PyValue.dtLt,
      Bind.bind, Except.bind, Pure.pure, Except.pure]
  rename_i tb ta
  split
  · rename_i err h
    split at h
    · rename_i heq
      simp only [heq]
      simp
    · exact absurd h (by simp)
  · rename_i v h
    split
    · rename_i hle
      simp
      omega
    · rename_i hgt
      simp
      omega

theorem validate_ok_iff (inp : EventsInput) :
    validate_request_params inp = .ok () ↔
      (validate_param_auction_type inp = .ok () ∧
       validate_param_event_type inp = .ok () ∧
       validate_params_occurred_before_and_occurred_after inp = .ok ()) := by
  unfold validate_request_params
  cases hA : validate_param_auction_type inp with
  | error e => simp [hA, Bind.bind, Except.bind]
  | ok u =>
    cases u
    cases hE : validate_param_event_type inp with
    | error e => simp [hA, hE, Bind.bind, Except.bind]
    | ok u => cases u; simp [hA, hE, Bind.bind, Except.bind]

theorem isOkE_mk (inp : EventsInput) :
    isOkE (mkEventsEndpoint inp) = isOkE (validate_request_params inp) := by
  unfold mkEventsEndpoint
  cases h : validate_request_params inp <;> simp [h, isOkE, Except.map]

theorem errKind_mk (inp : EventsInput) :
    errKind (mkEventsEndpoint inp) = errKind (validate_request_params inp) := by
  unfold mkEventsEndpoint
  cases h : validate_request_params inp <;> simp [h, errKind, Except.map]

theorem mk_error_of_validate (inp : EventsInput) (e : PyErr)
    (h : validate_request_params inp = .error e) :
    mkEventsEndpoint inp = .error e := by
  unfold mkEventsEndpoint
  simp [h, Except.map]

theorem validate_error_of_auction (inp : EventsInput) (e : PyErr)
    (h : validate_param_auction_type inp = .error e) :
    validate_request_params inp = .error e := by
  unfold validate_request_params
  simp [h, Bind.bind, Except.bind]

theorem validate_error_of_event (inp : EventsInput) (e : PyErr)
    (hA : validate_param_auction_type inp = .ok ())
    (h : validate_param_event_type inp = .error e) :
    validate_request_params inp = .error e := by
  unfold validate_request_params
  simp [hA, h, Bind.bind, Except.bind]

theorem validate_error_of_occ (inp : EventsInput) (e : PyErr)
    (hA : validate_param_auction_type inp = .ok ())
    (hE : validate_param_event_type inp = .ok ())
    (h : validate_params_occurred_before_and_occurred_after inp = .error e) :
    validate_request_params inp = .error e := by
  unfold validate_request_params
  simp [hA, hE, h, Bind.bind, Except.bind]

theorem auction_type_error_intro (inp : EventsInput)
    (hne : inp.auction_type ≠ .none)
    (h : inp.auction_type.isStringLike = false) :
    validate_param_auction_type inp =
      .error ⟨.typeKind, "Invalid auction_type type. Must be str or AuctionType Enum.",
              .fieldValue "auction_type" inp.auction_type⟩ := by
  unfold validate_param_auction_type
  simp [hne, h]

theorem auction_value_error_intro (inp : EventsInput)
    (h1 : inp.auction_type.isStringLike = true)
    (h2 : inp.auction_type.inStrList AuctionType.listValues = false) :
    validate_param_auction_type inp =
      .error ⟨.valueKind, "Invalid auction_type value. Must be str value from AuctionType Enum.",
              .fieldValue "auction_type" inp.auction_type⟩ := by
  have hne : inp.auction_type ≠ .none := by
    intro hc
    rw [hc] at h1
    simp [PyValue.isStringLike] at h1
  unfold validate_param_auction_type
  simp [hne, h1, h2]

theorem event_type_error_intro (inp : EventsInput)
    (h : inp.event_type.isStringLike = false) :
    validate_param_event_type inp =
      .error ⟨.typeKind, "Invalid event_type type. Must be str or EventType Enum.",
              .fieldValue "event_type" inp.event_type⟩ := by
  unfold validate_param_event_type
  simp [h]

theorem event_value_error_intro (inp : EventsInput)
    (h1 : inp.event_type.isStringLike = true)
    (h2 : inp.event_type.inStrList EventType.listValues = false) :
    validate_param_event_type inp =
      .error ⟨.valueKind, "Invalid event_type value. Must be str value from EventType Enum.",
              .fieldValue "event_type" inp.event_type⟩ := by
  unfold validate_param_event_type
  simp [h1, h2]

theorem occ_before_type_error_intro (inp : EventsInput)
    (h : inp.occurred_before.isNoneOrDatetime = false) :
    validate_params_occurred_before_and_occurred_after inp =
      .error ⟨.typeKind, "Invalid occurred_before type. Must be instance of datetime.",
              .fieldType "occurred_before" inp.occurred_before.typeName⟩ := by
  unfold validate_params_occurred_before_and_occurred_after
    validate_param_occurred_before
  simp [h, Bind.bind, Except.bind]

theorem occ_after_type_error_intro (inp : EventsInput)
    (hb : inp.occurred_before.isNoneOrDatetime = true)
    (h : inp.occurred_after.isNoneOrDatetime = false) :
    validate_params_occurred_before_and_occurred_after inp =
      .error ⟨.typeKind, "Invalid occurred_after type. Must be instance of datetime.",
              .fieldType "occurred_after" inp.occurred_after.typeName⟩ := by
  unfold validate_params_occurred_before_and_occurred_after
    validate_param_occurred_before validate_param_occurred_after
  simp [hb, h, Bind.bind, Except.bind]

theorem occ_equal_error_intro (inp : EventsInput) (tb ta : Int)
    (hb : inp.occurred_before = .datetime tb)
    (ha : inp.occurred_after = .datetime ta)
    (heq : ta = tb) :
    validate_params_occurred_before_and_occurred_after inp =
      .error ⟨.valueKind, "Params occurred_after and occurred_before may not have the same value.",
              .twoFieldValues "occurred_before" inp.occurred_before
                              "occurred_after" inp.occurred_after⟩ := by
  unfold validate_params_occurred_before_and_occurred_after
    validate_param_occurred_before validate_param_occurred_after
    assert_param_occurred_before_after_cannot_be_same_value
  simp [hb, ha, heq, PyValue.isNoneOrDatetime, PyValue.truthy,
    Bind.bind, Except.bind]

theorem occ_higher_error_intro (inp : EventsInput) (tb ta : Int)
    (hb : inp.occurred_before = .datetime tb)
    (ha : inp.occurred_after = .datetime ta)
    (hne : ta ≠ tb) (hnlt : ¬ ta < tb) :
    validate_params_occurred_before_and_occurred_after inp =
      .error ⟨.valueKind, "Param occurred_before cannot be higher than param occurred_after.",
              .twoFieldValues "occurred_before" inp.occurred_before
                              "occurred_after" inp.occurred_after⟩ := by
  unfold validate_params_occurred_before_and_occurred_after
    validate_param_occurred_before validate_param_occurred_after
    assert_param_occurred_before_after_cannot_be_same_value
    assert_param_occurred_before_cannot_be_higher_than_occurred_after
  simp [hb, ha, hne, hnlt, PyValue.isNoneOrDatetime, PyValue.truthy,
    PyValue.dtLt, Bind.bind, Except.bind]

theorem occ_not_lt_value_error (inp : EventsInput) (tb ta : Int)
    (hb : inp.occurred_before = .datetime tb)
    (ha : inp.occurred_after = .datetime ta)
    (hle : tb ≤ ta) :
    errKind (validate_params_occurred_before_and_occurred_after inp) =
      some .valueKind := by
  by_cases heq : ta = tb
  · rw [occ_equal_error_intro inp tb ta hb ha heq]
    rfl
  · rw [occ_higher_error_intro inp tb ta hb ha heq (by omega)]
    rfl

theorem auction_error_elim (inp : EventsInput) (e : PyErr)
    (h : validate_param_auction_type inp = .error e) :
    e.payload = .fieldValue "auction_type" inp.auction_type ∧
    inp.auction_type ≠ .none ∧
    ((inp.auction_type.isStringLike = false ∧ e.kind = .typeKind) ∨
     (inp.auction_type.isStringLike = true ∧
      inp.auction_type.inStrList AuctionType.listValues = false ∧
      e.kind = .valueKind)) := by
  unfold validate_param_auction_type at h
  repeat' split at h
  all_goals simp_all
  all_goals subst h
  all_goals simp_all

theorem event_error_elim (inp : EventsInput) (e : PyErr)
    (h : validate_param_event_type inp = .error e) :
    e.payload = .fieldValue "event_type" inp.event_type ∧
    ((inp.event_type.isStringLike = false ∧ e.kind = .typeKind) ∨
     (inp.event_type.isStringLike = true ∧
      inp.event_type.inStrList EventType.listValues = false ∧
      e.kind = .valueKind)) := by
  unfold validate_param_event_type at h
  repeat' split at h
  all_goals simp_all
  all_goals subst h
  all_goals simp_all

theorem isOk_unit_iff (r : Except PyErr Unit) :
    isOkE r = true ↔ r = .ok () := by
  cases r with
  | ok u => cases u; simp [isOkE]
  | error e => simp [isOkE]

theorem isNoneOrDatetime_iff (v : PyValue) :
    v.isNoneOrDatetime = true ↔ (v = .none ∨ ∃ t : Int, v = .datetime t) := by
  cases v <;> simp [PyValue.isNoneOrDatetime]

theorem inStrList_stringLike (v : PyValue) (xs : List String)
    (h : v.inStrList xs = true) : v.isStringLike = true := by
  unfold PyValue.inStrList at h
  rcases List.any_eq_true.mp h with ⟨s, hs, hv⟩
  simp only [Bool.and_eq_true] at hv
  exact hv.1

theorem mk_ok_input (inp : EventsInput) (ep : EventsEndpoint)
    (h : mkEventsEndpoint inp = .ok ep) : ep.input = inp := by
  unfold mkEventsEndpoint at h
  cases hv : validate_request_params inp with
  | ok u =>
    rw [hv] at h
    simp [Except.map] at h
    rw [← h]
  | error e =>
    rw [hv] at h
    simp [Except.map] at h

theorem mk_error_elim (inp : EventsInput) (e : PyErr)
    (h : mkEventsEndpoint inp = .error e) :
    validate_request_params inp = .error e := by
  unfold mkEventsEndpoint at h
  cases hv : validate_request_params inp with
  | ok u =>
    rw [hv] at h
    simp [Except.map] at h
  | error e1 =>
    rw [hv] at h
    simp [Except.map] at h
    rw [h]

theorem validate_eq_occ (inp : EventsInput)
    (hA : validate_param_auction_type inp = .ok ())
    (hE : validate_param_event_type inp = .ok ()) :
    validate_request_params inp =
      validate_params_occurred_before_and_occurred_after inp := by
  unfold validate_request_params
  simp [hA, hE, Bind.bind, Except.bind]

set_option maxHeartbeats 1000000 in
theorem occ_noeq_ok_iff (inp : EventsInput) :
    validate_params_occurred_without_equality_check inp = .ok () ↔
      (inp.occurred_before.isNoneOrDatetime = true ∧
       inp.occurred_after.isNoneOrDatetime = true ∧
       ∀ tb ta : Int, inp.occurred_before = .datetime tb →
         inp.occurred_after = .datetime ta → ta < tb) := by
  cases hb : inp.occurred_before <;> cases ha : inp.occurred_after <;>
    simp_all [validate_params_occurred_without_equality_check,
      validate_param_occurred_before, validate_param_occurred_after,
      assert_param_occurred_before_cannot_be_higher_than_occurred_after,
      PyValue.isNoneOrDatetime, PyValue.truthy, PyValue.dtLt,
      Bind.bind, Except.bind, Pure.pure, Except.pure]

theorem occ_noeq_higher_error_intro (inp : EventsInput) (tb ta : Int)
    (hb : inp.occurred_before = .datetime tb)
    (ha : inp.occurred_after = .datetime ta)
    (hnlt : ¬ ta < tb) :
    validate_params_occurred_without_equality_check inp =
      .error ⟨.valueKind, "Param occurred_before cannot be higher than param occurred_after.",
              .twoFieldValues "occurred_before" inp.occurred_before
                              "occurred_after" inp.occurred_after⟩ := by
  unfold validate_params_occurred_without_equality_check
    validate_param_occurred_before validate_param_occurred_after
    assert_param_occurred_before_cannot_be_higher_than_occurred_after
  simp [hb, ha, hnlt, PyValue.isNoneOrDatetime, PyValue.truthy,
    PyValue.dtLt, Bind.bind, Except.bind]

theorem before_error_elim (inp : EventsInput) (e : PyErr)
    (h : validate_param_occurred_before inp = .error e) :
    inp.occurred_before.isNoneOrDatetime = false ∧ e.kind = .typeKind ∧
    e.payload = .fieldType "occurred_before" inp.occurred_before.typeName := by
  unfold validate_param_occurred_before at h
  split at h
  · rename_i hcond
    injection h with h
    subst h
    refine ⟨?_, rfl, rfl⟩
    simpa using hcond
  · exact absurd h (by simp)

theorem after_error_elim (inp : EventsInput) (e : PyErr)
    (h : validate_param_occurred_after inp = .error e) :
    inp.occurred_after.isNoneOrDatetime = false ∧ e.kind = .typeKind ∧
    e.payload = .fieldType "occurred_after" inp.occurred_after.typeName := by
  unfold validate_param_occurred_after at h
  split at h
  · rename_i hcond
    injection h with h
    subst h
    refine ⟨?_, rfl, rfl⟩
    simpa using hcond
  · exact absurd h (by simp)

theorem before_ok_elim (inp : EventsInput)
    (h : validate_param_occurred_before inp = .ok ()) :
    inp.occurred_before.isNoneOrDatetime = true := by
  unfold validate_param_occurred_before at h
  split at h
  · exact absurd h (by simp)
  · rename_i hcond
    simpa using hcond

theorem after_ok_elim (inp : EventsInput)
    (h : validate_param_occurred_after inp = .ok ()) :
    inp.occurred_after.isNoneOrDatetime = true := by
  unfold validate_param_occurred_after at h
  split at h
  · exact absurd h (by simp)
  · rename_i hcond
    simpa using hcond

theorem same_value_error_elim (inp : EventsInput) (e : PyErr)
    (h : assert_param_occurred_before_after_cannot_be_same_value inp = .error e) :
    inp.occurred_after = inp.occurred_before ∧ e.kind = .valueKind ∧
    e.payload = .twoFieldValues "occurred_before" inp.occurred_before
      "occurred_after" inp.occurred_after := by
  unfold assert_param_occurred_before_after_cannot_be_same_value at h
  split at h
  · rename_i hcond
    injection h with h
    subst h
    exact ⟨hcond, rfl, rfl⟩
  · exact absurd h (by simp)

theorem higher_error_elim (inp : EventsInput) (e : PyErr)
    (h : assert_param_occurred_before_cannot_be_higher_than_occurred_after inp = .error e) :
    inp.occurred_after.dtLt inp.occurred_before = false ∧ e.kind = .valueKind ∧
    e.payload = .twoFieldValues "occurred_before" inp.occurred_before
      "occurred_after" inp.occurred_after := by
  unfold assert_param_occurred_before_cannot_be_higher_than_occurred_after at h
  split at h
  · rename_i hcond
    injection h with h
    subst h
    refine ⟨?_, rfl, rfl⟩
    simpa using hcond
  · exact absurd h (by simp)

theorem occ_error_elim_full (inp : EventsInput) (e : PyErr)
    (h : validate_params_occurred_before_and_occurred_after inp = .error e) :
    (inp.occurred_before.isNoneOrDatetime = false ∧ e.kind = .typeKind ∧
       e.payload = .fieldType "occurred_before" inp.occurred_before.typeName) ∨
    (inp.occurred_before.isNoneOrDatetime = true ∧
       inp.occurred_after.isNoneOrDatetime = false ∧ e.kind = .typeKind ∧
       e.payload = .fieldType "occurred_after" inp.occurred_after.typeName) ∨
    (inp.occurred_before.isNoneOrDatetime = true ∧
       inp.occurred_after.isNoneOrDatetime = true ∧
       inp.occurred_after = inp.occurred_before ∧ e.kind = .valueKind ∧
       e.payload = .twoFieldValues "occurred_before" inp.occurred_before
         "occurred_after" inp.occurred_after) ∨
    (inp.occurred_before.isNoneOrDatetime = true ∧
       inp.occurred_after.isNoneOrDatetime = true ∧
       inp.occurred_after.dtLt inp.occurred_before = false ∧ e.kind = .valueKind ∧
       e.payload = .twoFieldValues "occurred_before" inp.occurred_before
         "occurred_after" inp.occurred_after) := by
  unfold validate_params_occurred_before_and_occurred_after at h
  cases hb : validate_param_occurred_before inp with
  | error e1 =>
    rw [hb] at h
    simp [Bind.bind, Except.bind] at h
    subst h
    exact Or.inl (before_error_elim inp _ hb)
  | ok u =>
    cases u
    rw [hb] at h
    simp only [Bind.bind, Except.bind] at h
    cases ha : validate_param_occurred_after inp with
    | error e2 =>
      rw [ha] at h
      simp at h
      subst h
      exact Or.inr (Or.inl ⟨before_ok_elim inp hb, after_error_elim inp _ ha⟩)
    | ok u =>
      cases u
      rw [ha] at h
      simp only [] at h
      split at h
      · cases hs : assert_param_occurred_before_after_cannot_be_same_value inp with
        | error e3 =>
          rw [hs] at h
          simp at h
          subst h
          exact Or.inr (Or.inr (Or.inl
            ⟨before_ok_elim inp hb, after_ok_elim inp ha,
             same_value_error_elim inp _ hs⟩))
        | ok u =>
          cases u
          rw [hs] at h
          simp at h
          exact Or.inr (Or.inr (Or.inr
            ⟨before_ok_elim inp hb, after_ok_elim inp ha,
             higher_error_elim inp _ h⟩))
      · exact absurd h (by simp [Pure.pure, Except.pure])

/-! ### Claims -/

/-- C1: construction of the events endpoint succeeds if and only if
every validation rule holds — `auction_type` absent or a string-like
member of the AuctionType values, `event_type` a string-like member of
the EventType values, `occurred_before` and `occurred_after` each absent
or datetimes, and `occurred_after` strictly earlier than
`occurred_before` when both are present; any violation raises an error
at construction time, so no partially-validated instance is produced. -/
theorem C1_construction_succeeds_iff_valid (inp : EventsInput) :
    (isOkE (mkEventsEndpoint inp) = true ↔ ValidEventsInput inp) ∧
    (¬ ValidEventsInput inp → ∃ e, mkEventsEndpoint inp = .error e) := by
  have hiff : isOkE (mkEventsEndpoint inp) = true ↔ ValidEventsInput inp := by
    rw [isOkE_mk, isOk_unit_iff, validate_ok_iff, auction_ok_iff,
      event_ok_iff, occ_ok_iff, isNoneOrDatetime_iff, isNoneOrDatetime_iff]
    unfold ValidEventsInput
    tauto
  refine ⟨hiff, fun hnv => ?_⟩
  cases h : mkEventsEndpoint inp with
  | ok ep => exact absurd (hiff.mp (by rw [h]; rfl)) hnv
  | error e => exact ⟨e, rfl⟩

/-- Witness for C1: the tests' default arguments satisfy every rule and
construction succeeds; with `event_type` absent the rules fail and
construction raises. -/
theorem C1_witness :
    isOkE (mkEventsEndpoint sampleInput) = true ∧
    (∃ e, mkEventsEndpoint inpEventAbsent = .error e) := by
  constructor
  · exact (C1_construction_succeeds_iff_valid sampleInput).1.mpr
      ⟨Or.inl rfl, by decide, Or.inl rfl, Or.inl rfl,
       fun tb ta hb ha => by simp [sampleInput] at hb⟩
  · exact (C1_construction_succeeds_iff_valid inpEventAbsent).2
      (fun h => absurd h.2.1.1 (by decide))

/-- C2: a present non-datetime `occurred_before`/`occurred_after` fails
construction with a TypeKind error; when both are datetimes, equal
values and `occurred_after` at or after `occurred_before` fail with a
ValueKind error, and `occurred_after` strictly earlier lets construction
succeed (the other parameter groups being valid). -/
theorem C2_occurred_before_after_rules (inp : EventsInput)
    (hA : validate_param_auction_type inp = .ok ())
    (hE : validate_param_event_type inp = .ok ()) :
    ((inp.occurred_before.isNoneOrDatetime = false ∨
      inp.occurred_after.isNoneOrDatetime = false) →
        errKind (mkEventsEndpoint inp) = some .typeKind) ∧
    (∀ tb ta : Int, inp.occurred_before = .datetime tb →
        inp.occurred_after = .datetime ta →
        ((ta = tb → errKind (mkEventsEndpoint inp) = some .valueKind) ∧
         (tb ≤ ta → errKind (mkEventsEndpoint inp) = some .valueKind) ∧
         (ta < tb → isOkE (mkEventsEndpoint inp) = true))) := by
  constructor
  · intro hbad
    rw [errKind_mk]
    by_cases hb : inp.occurred_before.isNoneOrDatetime = true
    · have hafter : inp.occurred_after.isNoneOrDatetime = false := by
        rcases hbad with h | h
        · simp [h] at hb
        · exact h
      rw [validate_error_of_occ inp _ hA hE
        (occ_after_type_error_intro inp hb hafter)]
      rfl
    · have hb' : inp.occurred_before.isNoneOrDatetime = false := by
        cases hx : inp.occurred_before.isNoneOrDatetime
        · rfl
        · exact absurd hx hb
      rw [validate_error_of_occ inp _ hA hE
        (occ_before_type_error_intro inp hb')]
      rfl
  · intro tb ta hb ha
    refine ⟨?_, ?_, ?_⟩
    · intro heq
      rw [errKind_mk, validate_error_of_occ inp _ hA hE
        (occ_equal_error_intro inp tb ta hb ha heq)]
      rfl
    · intro hle
      rw [errKind_mk]
      by_cases heq : ta = tb
      · rw [validate_error_of_occ inp _ hA hE
          (occ_equal_error_intro inp tb ta hb ha heq)]
        rfl
      · rw [validate_error_of_occ inp _ hA hE
          (occ_higher_error_intro inp tb ta hb ha heq (by omega))]
        rfl
    · intro hlt
      rw [isOkE_mk, isOk_unit_iff, validate_ok_iff]
      refine ⟨hA, hE, ?_⟩
      rw [occ_ok_iff]
      refine ⟨by rw [hb]; rfl, by rw [ha]; rfl, ?_⟩
      intro tb' ta' hb' ha'
      rw [hb] at hb'
      rw [ha] at ha'
      injection hb' with h1
      injection ha' with h2
      omega

/-- Witness for C2 at concrete inputs: boolean `occurred_before`
(TypeKind), equal bounds (ValueKind), inverted bounds (ValueKind), and a
consistent pair (success). -/
theorem C2_witness :
    errKind (mkEventsEndpoint inpOccBoolBefore) = some .typeKind ∧
    errKind (mkEventsEndpoint inpOccEqual) = some .valueKind ∧
    errKind (mkEventsEndpoint inpOccInverted) = some .valueKind ∧
    isOkE (mkEventsEndpoint inpOccValid) = true := by
  refine ⟨?_, ?_, ?_, ?_⟩
  · exact (C2_occurred_before_after_rules inpOccBoolBefore rfl rfl).1
      (Or.inl (by decide))
  · exact ((C2_occurred_before_after_rules inpOccEqual rfl rfl).2
      100 100 rfl rfl).1 rfl
  · exact ((C2_occurred_before_after_rules inpOccInverted rfl rfl).2
      100 200 rfl rfl).2.1 (by decide)
  · exact ((C2_occurred_before_after_rules inpOccValid rfl rfl).2
      200 100 rfl rfl).2.2 (by decide)

/-- C3: a non-string-like `event_type` fails its check (and construction)
with a TypeKind error; a string-like value outside the EventType values
fails with a ValueKind error; an absent `event_type` fails construction;
a member of the EventType value set passes the check. -/
theorem C3_event_type_rules (inp : EventsInput)
    (hA : validate_param_auction_type inp = .ok ()) :
    (inp.event_type.isStringLike = false →
        errKind (validate_param_event_type inp) = some .typeKind ∧
        errKind (mkEventsEndpoint inp) = some .typeKind) ∧
    (inp.event_type.isStringLike = true →
      inp.event_type.inStrList EventType.listValues = false →
        errKind (validate_param_event_type inp) = some .valueKind ∧
        errKind (mkEventsEndpoint inp) = some .valueKind) ∧
    (inp.event_type = .none → isOkE (mkEventsEndpoint inp) = false) ∧
    (inp.event_type.inStrList EventType.listValues = true →
        validate_param_event_type inp = .ok ()) := by
  refine ⟨?_, ?_, ?_, ?_⟩
  · intro h
    constructor
    · rw [event_type_error_intro inp h]
      rfl
    · rw [errKind_mk,
        validate_error_of_event inp _ hA (event_type_error_intro inp h)]
      rfl
  · intro h1 h2
    constructor
    · rw [event_value_error_intro inp h1 h2]
      rfl
    · rw [errKind_mk,
        validate_error_of_event inp _ hA (event_value_error_intro inp h1 h2)]
      rfl
  · intro h
    have hsl : inp.event_type.isStringLike = false := by
      rw [h]
      rfl
    rw [isOkE_mk,
      validate_error_of_event inp _ hA (event_type_error_intro inp hsl)]
    rfl
  · intro h
    rw [event_ok_iff]
    exact ⟨inStrList_stringLike _ _ h, h⟩

/-- Witness for C3: absence (TypeKind), an unknown string (ValueKind),
and the enum member `SUCCESSFUL` (passes). -/
theorem C3_witness :
    (errKind (validate_param_event_type inpEventAbsent) = some .typeKind ∧
     errKind (mkEventsEndpoint inpEventAbsent) = some .typeKind) ∧
    (errKind (validate_param_event_type inpBadEventStr) = some .valueKind ∧
     errKind (mkEventsEndpoint inpBadEventStr) = some .valueKind) ∧
    isOkE (mkEventsEndpoint inpEventAbsent) = false ∧
    validate_param_event_type sampleInput = .ok () := by
  refine ⟨?_, ?_, ?_, ?_⟩
  · exact (C3_event_type_rules inpEventAbsent rfl).1 (by decide)
  · exact (C3_event_type_rules inpBadEventStr rfl).2.1 (by decide) (by decide)
  · exact (C3_event_type_rules inpEventAbsent rfl).2.2.1 rfl
  · exact (C3_event_type_rules sampleInput rfl).2.2.2 (by decide)

/-- C4: an absent `auction_type` passes its check; a present
non-string-like value fails construction with a TypeKind error; a
string-like value outside the AuctionType values fails with a ValueKind
error; a member of the AuctionType value set passes. -/
theorem C4_auction_type_rules (inp : EventsInput) :
    (inp.auction_type = .none → validate_param_auction_type inp = .ok ()) ∧
    (inp.auction_type ≠ .none → inp.auction_type.isStringLike = false →
        errKind (validate_param_auction_type inp) = some .typeKind ∧
        errKind (mkEventsEndpoint inp) = some .typeKind) ∧
    (inp.auction_type.isStringLike = true →
      inp.auction_type.inStrList AuctionType.listValues = false →
        errKind (validate_param_auction_type inp) = some .valueKind ∧
        errKind (mkEventsEndpoint inp) = some .valueKind) ∧
    (inp.auction_type.inStrList AuctionType.listValues = true →
        validate_param_auction_type inp = .ok ()) := by
  refine ⟨?_, ?_, ?_, ?_⟩
  · intro h
    unfold validate_param_auction_type
    simp [h]
  · intro hne h
    constructor
    · rw [auction_type_error_intro inp hne h]
      rfl
    · rw [errKind_mk, validate_error_of_auction inp _
        (auction_type_error_intro inp hne h)]
      rfl
  · intro h1 h2
    constructor
    · rw [auction_value_error_intro inp h1 h2]
      rfl
    · rw [errKind_mk, validate_error_of_auction inp _
        (auction_value_error_intro inp h1 h2)]
      rfl
  · intro h
    rw [auction_ok_iff]
    exact Or.inr ⟨inStrList_stringLike _ _ h, h⟩

/-- Witness for C4: absence (passes), a non-string-like value
(TypeKind), an unknown string (ValueKind), and the enum member `DUTCH`
(passes). -/
theorem C4_witness :
    validate_param_auction_type sampleInput = .ok () ∧
    (errKind (validate_param_auction_type inpBadAuctionNonStr) = some .typeKind ∧
     errKind (mkEventsEndpoint inpBadAuctionNonStr) = some .typeKind) ∧
    (errKind (validate_param_auction_type inpBadAuctionStr) = some .valueKind ∧
     errKind (mkEventsEndpoint inpBadAuctionStr) = some .valueKind) ∧
    validate_param_auction_type inpAuctionDutch = .ok () := by
  refine ⟨?_, ?_, ?_, ?_⟩
  · exact (C4_auction_type_rules sampleInput).1 rfl
  · exact (C4_auction_type_rules inpBadAuctionNonStr).2.1 (by decide) (by decide)
  · exact (C4_auction_type_rules inpBadAuctionStr).2.2.1 (by decide) (by decide)
  · exact (C4_auction_type_rules inpAuctionDutch).2.2.2 (by decide)

/-- C5 counterexample: on an input where the auction-type group and the
event-type group both fail on their own, validation raises the
auction-type error and the event-type group never runs — a failure in
one group does prevent the later groups' checks from running. -/
theorem C5_counterexample_groups_do_short_circuit :
    (validate_request_params_trace inpBadBothGroups).2 = ["auction_type"] ∧
    errKind (validate_param_auction_type inpBadBothGroups) = some .typeKind ∧
    errKind (validate_param_event_type inpBadBothGroups) = some .typeKind ∧
    validate_request_params inpBadBothGroups =
      .error ⟨.typeKind, "Invalid auction_type type. Must be str or AuctionType Enum.",
              .fieldValue "auction_type" (.int 0)⟩ :=
  ⟨rfl, rfl, rfl, rfl⟩

/-- C5 (amended): the validation algorithm runs the three check groups
in source order — auction-type, event-type, occurred-before/after — and
is short-circuited across groups: a later group runs exactly when every
earlier group passed, and the first failing check's error is the result
(each group's own internal checks likewise stop at the group's first
failure). -/
theorem C5_groups_run_in_order (inp : EventsInput) :
    (validate_request_params_trace inp).1 = validate_request_params inp ∧
    ((validate_request_params_trace inp).2 = ["auction_type"] ∨
     (validate_request_params_trace inp).2 = ["auction_type", "event_type"] ∨
     (validate_request_params_trace inp).2 =
       ["auction_type", "event_type", "occurred_before_and_occurred_after"]) ∧
    "auction_type" ∈ (validate_request_params_trace inp).2 ∧
    ("event_type" ∈ (validate_request_params_trace inp).2 ↔
       validate_param_auction_type inp = .ok ()) ∧
    ("occurred_before_and_occurred_after" ∈ (validate_request_params_trace inp).2 ↔
       (validate_param_auction_type inp = .ok () ∧
        validate_param_event_type inp = .ok ())) := by
  refine ⟨trace_fst_eq_validate inp, ?_, ?_, ?_, ?_⟩ <;>
    unfold validate_request_params_trace <;>
    cases hA : validate_param_auction_type inp with
  | error e => simp [hA]
  | ok u =>
    cases u
    cases hE : validate_param_event_type inp with
    | error e => simp [hA, hE]
    | ok u => cases u; simp [hA, hE]

/-- Witness for C5 (amended): on the valid default input all three
groups run, in order. -/
theorem C5_witness :
    (validate_request_params_trace sampleInput).2 =
      ["auction_type", "event_type", "occurred_before_and_occurred_after"] ∧
    "event_type" ∈ (validate_request_params_trace sampleInput).2 ∧
    "occurred_before_and_occurred_after" ∈
      (validate_request_params_trace sampleInput).2 := by
  refine ⟨?_, ?_, ?_⟩
  · have h := (C5_groups_run_in_order sampleInput).2.1
    rcases h with h | h | h
    · exact absurd ((C5_groups_run_in_order sampleInput).2.2.2.1.mpr rfl)
        (by rw [h]; decide)
    · exact absurd ((C5_groups_run_in_order sampleInput).2.2.2.2.mpr ⟨rfl, rfl⟩)
        (by rw [h]; decide)
    · exact h
  · exact (C5_groups_run_in_order sampleInput).2.2.2.1.mpr rfl
  · exact (C5_groups_run_in_order sampleInput).2.2.2.2.mpr ⟨rfl, rfl⟩

/-- C6: for every successfully constructed instance, issuing the request
performs a GET against the fixed events URL whose query-parameter set is
exactly the eleven documented keys, with `offset` and `limit` from the
client-parameters object and every other value taken unchanged from the
instance's fields, and the raw response is retained on the object. -/
theorem C6_request_contract (inp : EventsInput) (ep : EventsEndpoint)
    (t : Transport) (h : mkEventsEndpoint inp = .ok ep) :
    (get_request ep t).call.url = OpenseaApiEndpoints.EVENTS ∧
    (get_request ep t).call.params.map Prod.fst =
      ["offset", "limit", "asset_contract_address", "event_type",
       "only_opensea", "collection_slug", "token_id", "account_address",
       "auction_type", "occurred_before", "occurred_after"] ∧
    (get_request ep t).call.params =
      [("offset", .int inp.client_params.offset),
       ("limit", .int inp.client_params.limit),
       ("asset_contract_address", inp.asset_contract_address),
       ("event_type", inp.event_type),
       ("only_opensea", inp.only_opensea),
       ("collection_slug", inp.collection_slug),
       ("token_id", inp.token_id),
       ("account_address", inp.account_address),
       ("auction_type", inp.auction_type),
       ("occurred_before", inp.occurred_before),
       ("occurred_after", inp.occurred_after)] ∧
    (get_request ep t).http_response = t (get_request ep t).call := by
  have hin : ep.input = inp := mk_ok_input inp ep h
  rw [← hin]
  exact ⟨rfl, rfl, rfl, rfl⟩

/-- Witness for C6 at the tests' default arguments and a stub
transport. -/
theorem C6_witness :
    (get_request epSample sampleTransport).call.url = OpenseaApiEndpoints.EVENTS ∧
    (get_request epSample sampleTransport).call.params.map Prod.fst =
      ["offset", "limit", "asset_contract_address", "event_type",
       "only_opensea", "collection_slug", "token_id", "account_address",
       "auction_type", "occurred_before", "occurred_after"] ∧
    (get_request epSample sampleTransport).http_response =
      sampleTransport (get_request epSample sampleTransport).call := by
  have h := C6_request_contract sampleInput epSample sampleTransport rfl
  exact ⟨h.1, h.2.1, h.2.2.2⟩

/-- C7: for every retained response whose JSON body holds an
`asset_events` array, the parsed result is exactly the element-wise map
of the external event parser over that array — same length, i-th record
the parse of the i-th element, server order preserved. -/
theorem C7_response_contract {EventRecord : Type}
    (EventResponse : Json → EventRecord) (resp : HttpResponse)
    (events_json : List Json)
    (h : resp.body.getKey "asset_events" = some (.arr events_json)) :
    parsed_http_response EventResponse resp =
      some (events_json.map EventResponse) ∧
    ∀ out, parsed_http_response EventResponse resp = some out →
      out.length = events_json.length ∧
      ∀ i : Fin out.length, ∀ hj : i.val < events_json.length,
        out.get i = EventResponse (events_json.get ⟨i.val, hj⟩) := by
  have hmain : parsed_http_response EventResponse resp =
      some (events_json.map EventResponse) := by
    unfold parsed_http_response
    rw [h]
  refine ⟨hmain, fun out hout => ?_⟩
  rw [hmain] at hout
  injection hout with hout
  subst hout
  constructor
  · simp
  · intro i hj
    simp [List.get_eq_getElem, List.getElem_map]

/-- Witness for C7: a two-element `asset_events` array parsed by the
identity parser. -/
theorem C7_witness :
    parsed_http_response (fun j => j) sampleEventsResponse =
      some [Json.str "e1", Json.str "e2"] ∧
    (parsed_http_response (fun j => j) sampleEventsResponse).map
      (fun l => l.length) = some 2 := by
  have h := (C7_response_contract (fun j => j) sampleEventsResponse
    [Json.str "e1", Json.str "e2"] rfl).1
  exact ⟨h, by rw [h]; rfl⟩

/-- C8: validation failures surface at construction time and no HTTP
call is ever issued for such a parameter set; the request step runs only
after construction-time validation fully succeeded, in which case
exactly the one logged call is made. -/
theorem C8_no_request_without_validation (inp : EventsInput) (t : Transport) :
    (∀ e, validate_request_params inp = .error e →
       create_and_get inp t = (.error e, [])) ∧
    (∀ r calls, create_and_get inp t = (.ok r, calls) →
       validate_request_params inp = .ok () ∧ calls = [r.call]) := by
  constructor
  · intro e he
    unfold create_and_get
    rw [mk_error_of_validate inp e he]
  · intro r calls hc
    unfold create_and_get at hc
    cases hm : mkEventsEndpoint inp with
    | error e =>
      rw [hm] at hc
      simp at hc
    | ok ep =>
      rw [hm] at hc
      simp at hc
      have h1 : validate_request_params inp = .ok () := by
        cases hv : validate_request_params inp with
        | ok u => cases u; rfl
        | error e =>
          rw [mk_error_of_validate inp e hv] at hm
          cases hm
      rw [← hc.2]
      rw [← hc.1]
      exact ⟨h1, rfl⟩

/-- Witness for C8: with `event_type` absent, construction raises and
the HTTP call log stays empty. -/
theorem C8_witness :
    create_and_get inpEventAbsent sampleTransport =
      (.error ⟨.typeKind, "Invalid event_type type. Must be str or EventType Enum.",
               .fieldValue "event_type" .none⟩, []) :=
  (C8_no_request_without_validation inpEventAbsent sampleTransport).1 _ rfl

/-- C9 counterexample: the occurred-before TypeKind error does not carry
the offending value — two inputs differing only in that value raise
identical errors (the payload holds only the value's type). -/
theorem C9_counterexample_payload_lacks_value :
    mkEventsEndpoint inpOccStrA = mkEventsEndpoint inpOccStrB ∧
    inpOccStrA.occurred_before ≠ inpOccStrB.occurred_before ∧
    mkEventsEndpoint inpOccStrA = .error eOccStr ∧
    eOccStr.kind = .typeKind :=
  ⟨rfl, by decide, rfl, rfl⟩

/-- C9 (amended): every validation error raised at construction carries
the offending field's name, tied to the check that failed: an
auction-type or event-type error (TypeKind for a non-string-like value,
ValueKind for an unknown string) carries that field's name and the
offending value itself; an `occurred_before`/`occurred_after` TypeKind
error carries the offending field's name and the offending value's type
instead of the value; an occurred cross-field ValueKind error (equal
bounds, or `occurred_after` not strictly earlier) carries both field
names and both offending values. -/
theorem C9_error_payloads (inp : EventsInput) (e : PyErr)
    (h : mkEventsEndpoint inp = .error e) :
    (inp.auction_type ≠ .none ∧ inp.auction_type.isStringLike = false ∧
       e.kind = .typeKind ∧
       e.payload = .fieldValue "auction_type" inp.auction_type) ∨
    (inp.auction_type.isStringLike = true ∧
       inp.auction_type.inStrList AuctionType.listValues = false ∧
       e.kind = .valueKind ∧
       e.payload = .fieldValue "auction_type" inp.auction_type) ∨
    (inp.event_type.isStringLike = false ∧ e.kind = .typeKind ∧
       e.payload = .fieldValue "event_type" inp.event_type) ∨
    (inp.event_type.isStringLike = true ∧
       inp.event_type.inStrList EventType.listValues = false ∧
       e.kind = .valueKind ∧
       e.payload = .fieldValue "event_type" inp.event_type) ∨
    (inp.occurred_before.isNoneOrDatetime = false ∧ e.kind = .typeKind ∧
       e.payload = .fieldType "occurred_before" inp.occurred_before.typeName) ∨
    (inp.occurred_before.isNoneOrDatetime = true ∧
       inp.occurred_after.isNoneOrDatetime = false ∧ e.kind = .typeKind ∧
       e.payload = .fieldType "occurred_after" inp.occurred_after.typeName) ∨
    (inp.occurred_before.isNoneOrDatetime = true ∧
       inp.occurred_after.isNoneOrDatetime = true ∧
       inp.occurred_after = inp.occurred_before ∧ e.kind = .valueKind ∧
       e.payload = .twoFieldValues "occurred_before" inp.occurred_before
         "occurred_after" inp.occurred_after) ∨
    (inp.occurred_before.isNoneOrDatetime = true ∧
       inp.occurred_after.isNoneOrDatetime = true ∧
       inp.occurred_after.dtLt inp.occurred_before = false ∧ e.kind = .valueKind ∧
       e.payload = .twoFieldValues "occurred_before" inp.occurred_before
         "occurred_after" inp.occurred_after) := by
  have hv : validate_request_params inp = .error e := mk_error_elim inp e h
  cases hA : validate_param_auction_type inp with
  | error eA =>
    have hva := validate_error_of_auction inp eA hA
    rw [hv] at hva
    injection hva with hva
    subst hva
    obtain ⟨hp, hne, hcase⟩ := auction_error_elim inp _ hA
    rcases hcase with ⟨h1, h2⟩ | ⟨h1, h2, h3⟩
    · exact Or.inl ⟨hne, h1, h2, hp⟩
    · exact Or.inr (Or.inl ⟨h1, h2, h3, hp⟩)
  | ok u =>
    cases u
    cases hE : validate_param_event_type inp with
    | error eE =>
      have hve := validate_error_of_event inp eE hA hE
      rw [hv] at hve
      injection hve with hve
      subst hve
      obtain ⟨hp, hcase⟩ := event_error_elim inp _ hE
      rcases hcase with ⟨h1, h2⟩ | ⟨h1, h2, h3⟩
      · exact Or.inr (Or.inr (Or.inl ⟨h1, h2, hp⟩))
      · exact Or.inr (Or.inr (Or.inr (Or.inl ⟨h1, h2, h3, hp⟩)))
    | ok u =>
      cases u
      have hvo := validate_eq_occ inp hA hE
      rw [hv] at hvo
      rcases occ_error_elim_full inp e hvo.symm with h1 | h1 | h1 | h1
      · exact Or.inr (Or.inr (Or.inr (Or.inr (Or.inl h1))))
      · exact Or.inr (Or.inr (Or.inr (Or.inr (Or.inr (Or.inl h1)))))
      · exact Or.inr (Or.inr (Or.inr (Or.inr (Or.inr (Or.inr (Or.inl h1))))))
      · exact Or.inr (Or.inr (Or.inr (Or.inr (Or.inr (Or.inr (Or.inr h1))))))

/-- Witness for C9 (amended) at the boolean `occurred_before` input,
whose error is the occurred-before TypeKind error carrying the field
name and the value's type. -/
theorem C9_witness :
    (inpOccBoolBefore.auction_type ≠ .none ∧
       inpOccBoolBefore.auction_type.isStringLike = false ∧
       eOccBoolBefore.kind = .typeKind ∧
       eOccBoolBefore.payload =
         .fieldValue "auction_type" inpOccBoolBefore.auction_type) ∨
    (inpOccBoolBefore.auction_type.isStringLike = true ∧
       inpOccBoolBefore.auction_type.inStrList AuctionType.listValues = false ∧
       eOccBoolBefore.kind = .valueKind ∧
       eOccBoolBefore.payload =
         .fieldValue "auction_type" inpOccBoolBefore.auction_type) ∨
    (inpOccBoolBefore.event_type.isStringLike = false ∧
       eOccBoolBefore.kind = .typeKind ∧
       eOccBoolBefore.payload =
         .fieldValue "event_type" inpOccBoolBefore.event_type) ∨
    (inpOccBoolBefore.event_type.isStringLike = true ∧
       inpOccBoolBefore.event_type.inStrList EventType.listValues = false ∧
       eOccBoolBefore.kind = .valueKind ∧
       eOccBoolBefore.payload =
         .fieldValue "event_type" inpOccBoolBefore.event_type) ∨
    (inpOccBoolBefore.occurred_before.isNoneOrDatetime = false ∧
       eOccBoolBefore.kind = .typeKind ∧
       eOccBoolBefore.payload =
         .fieldType "occurred_before" inpOccBoolBefore.occurred_before.typeName) ∨
    (inpOccBoolBefore.occurred_before.isNoneOrDatetime = true ∧
       inpOccBoolBefore.occurred_after.isNoneOrDatetime = false ∧
       eOccBoolBefore.kind = .typeKind ∧
       eOccBoolBefore.payload =
         .fieldType "occurred_after" inpOccBoolBefore.occurred_after.typeName) ∨
    (inpOccBoolBefore.occurred_before.isNoneOrDatetime = true ∧
       inpOccBoolBefore.occurred_after.isNoneOrDatetime = true ∧
       inpOccBoolBefore.occurred_after = inpOccBoolBefore.occurred_before ∧
       eOccBoolBefore.kind = .valueKind ∧
       eOccBoolBefore.payload =
         .twoFieldValues "occurred_before" inpOccBoolBefore.occurred_before
           "occurred_after" inpOccBoolBefore.occurred_after) ∨
    (inpOccBoolBefore.occurred_before.isNoneOrDatetime = true ∧
       inpOccBoolBefore.occurred_after.isNoneOrDatetime = true ∧
       inpOccBoolBefore.occurred_after.dtLt inpOccBoolBefore.occurred_before = false ∧
       eOccBoolBefore.kind = .valueKind ∧
       eOccBoolBefore.payload =
         .twoFieldValues "occurred_before" inpOccBoolBefore.occurred_before
           "occurred_after" inpOccBoolBefore.occurred_after) :=
  C9_error_payloads inpOccBoolBefore eOccBoolBefore rfl

/-- C10: when both bounds are datetimes, the dedicated equal-values
check is redundant — the validator with it removed accepts and rejects
exactly the same inputs as the implemented one; only which ValueKind
error is raised on equal inputs differs. -/
theorem C10_equality_check_redundant (inp : EventsInput) (tb ta : Int)
    (hb : inp.occurred_before = .datetime tb)
    (ha : inp.occurred_after = .datetime ta) :
    (isOkE (validate_params_occurred_before_and_occurred_after inp) =
       isOkE (validate_params_occurred_without_equality_check inp)) ∧
    (ta = tb →
       validate_params_occurred_before_and_occurred_after inp =
         .error ⟨.valueKind,
                 "Params occurred_after and occurred_before may not have the same value.",
                 .twoFieldValues "occurred_before" inp.occurred_before
                                 "occurred_after" inp.occurred_after⟩ ∧
       validate_params_occurred_without_equality_check inp =
         .error ⟨.valueKind,
                 "Param occurred_before cannot be higher than param occurred_after.",
                 .twoFieldValues "occurred_before" inp.occurred_before
                                 "occurred_after" inp.occurred_after⟩) := by
  have hsame : (validate_params_occurred_before_and_occurred_after inp = .ok ()) ↔
      (validate_params_occurred_without_equality_check inp = .ok ()) :=
    (occ_ok_iff inp).trans (occ_noeq_ok_iff inp).symm
  constructor
  · cases hx : validate_params_occurred_before_and_occurred_after inp with
    | ok u =>
      cases u
      rw [hsame.mp hx]
    | error e =>
      cases hy : validate_params_occurred_without_equality_check inp with
      | ok u =>
        cases u
        have := hsame.mpr hy
        rw [hx] at this
        cases this
      | error e2 => rfl
  · intro heq
    exact ⟨occ_equal_error_intro inp tb ta hb ha heq,
      occ_noeq_higher_error_intro inp tb ta hb ha (by omega)⟩

/-- Witness for C10 at equal bounds: both validators reject, with
different ValueKind errors. -/
theorem C10_witness :
    isOkE (validate_params_occurred_before_and_occurred_after inpOccEqual) =
      isOkE (validate_params_occurred_without_equality_check inpOccEqual) ∧
    validate_params_occurred_before_and_occurred_after inpOccEqual =
      .error ⟨.valueKind,
              "Params occurred_after and occurred_before may not have the same value.",
              .twoFieldValues "occurred_before" inpOccEqual.occurred_before
                              "occurred_after" inpOccEqual.occurred_after⟩ ∧
    validate_params_occurred_without_equality_check inpOccEqual =
      .error ⟨.valueKind,
              "Param occurred_before cannot be higher than param occurred_after.",
              .twoFieldValues "occurred_before" inpOccEqual.occurred_before
                              "occurred_after" inpOccEqual.occurred_after⟩ := by
  have h := C10_equality_check_redundant inpOccEqual 100 100 rfl rfl
  exact ⟨h.1, (h.2 rfl).1, (h.2 rfl).2⟩

end OpenSeaEvents
